import Mathlib

/-!
Verification of RecorderService.js against its natural-language specification.

The development shallowly embeds the parts of the source that the checked
properties talk about:

* `AudioProcessor` (src/src/AudioProcessor.js) — the frame accumulator run
  inside the audio worklet (`pushToBuffer`, `process`);
* `RecorderService` (src/src/RecorderService.js, the `EventTarget` version) —
  the lifecycle state machine (`init`, `record`, `pause`, `resume`, `stop`,
  `release`, `_destroy`, `_onDataAvailable`) and its buffer-selection step
  (`_onAudioProcess`);
* `TinyRecorderService._onAudioProcess` (src/src/TinyRecorderService.js) —
  the bounded accumulator with a discard policy;
* the encoder worker (`encoder-wav-worker.js`) and `Resampler.js` are imported
  by RecorderService.js but their sources are not in the repository snapshot;
  where needed they are modelled from the specification, and the definitions
  say so in their doc comments.

JavaScript `Float32Array` sample buffers are embedded as `List Sample` with
`Sample := ℚ`; only structural behaviour (concatenation, slicing, lengths) is
relevant to the properties below, no floating-point arithmetic is.
-/

set_option maxRecDepth 2048

/-- Audio samples: the embedding uses exact rationals for the contents of the
JavaScript `Float32Array` buffers; the verified properties only depend on the
buffers structurally. -/
abbrev Sample := ℚ

/-! ## AudioProcessor (src/src/AudioProcessor.js)

```js
pushToBuffer(buffer) {
    if (this.buffer.length >= this.bufferSize) {
        this.buffer = new Float32Array(0);
    }
    let mergedData = new Float32Array(this.buffer.length + buffer.length);
    mergedData.set(this.buffer, 0);
    mergedData.set(buffer, this.buffer.length);
    this.buffer = mergedData;
}
```
-/

/-- `AudioProcessor.pushToBuffer`: if the stored buffer has reached
`bufferSize`, it is first replaced by an empty array (dropping its contents),
then the incoming chunk is appended to what remains. -/
def pushToBuffer (bufferSize : Nat) (buffer chunk : List Sample) : List Sample :=
  (if bufferSize ≤ buffer.length then ([] : List Sample) else buffer) ++ chunk

/-- One `AudioProcessor.process` callback with a non-empty input chunk:
`pushToBuffer` runs, then, if the merged buffer has length at least
`bufferSize`, the whole merged buffer is posted as a window.
Returns `(new buffer, emitted windows, segments discarded by the reset in
pushToBuffer)`. -/
def processStep (bufferSize : Nat) (buffer chunk : List Sample) :
    List Sample × List (List Sample) × List (List Sample) :=
  let discarded := if bufferSize ≤ buffer.length then [buffer] else []
  let merged := pushToBuffer bufferSize buffer chunk
  (merged, (if bufferSize ≤ merged.length then [merged] else []), discarded)

/-- Iterated `process` callbacks over a sequence of input chunks.
Returns `(final buffer, all emitted windows, all discarded segments)`. -/
def processRun (bufferSize : Nat) (buffer : List Sample) :
    List (List Sample) → List Sample × List (List Sample) × List (List Sample)
  | [] => (buffer, [], [])
  | c :: cs =>
    let s := processStep bufferSize buffer c
    let rest := processRun bufferSize s.1 cs
    (rest.1, s.2.1 ++ rest.2.1, s.2.2 ++ rest.2.2)

/-- The constructor initialises `this.buffer = new Float32Array(this.bufferSize)`,
i.e. a zero-filled array already of length `bufferSize`. -/
def initialProcessorBuffer (bufferSize : Nat) : List Sample :=
  List.replicate bufferSize 0

/-- Helper: `processRun` distributes over the head push. -/
theorem processRun_cons (bufferSize : Nat) (buffer c : List Sample)
    (cs : List (List Sample)) :
    processRun bufferSize buffer (c :: cs) =
      ((processRun bufferSize (processStep bufferSize buffer c).1 cs).1,
       (processStep bufferSize buffer c).2.1 ++
         (processRun bufferSize (processStep bufferSize buffer c).1 cs).2.1,
       (processStep bufferSize buffer c).2.2 ++
         (processRun bufferSize (processStep bufferSize buffer c).1 cs).2.2) :=
  rfl

/-- C1 (counterexample): the conservation equation claimed by the spec fails.
With `bufferSize = 2` (constructor buffer `[0, 0]`) and pushed chunks `[1]`
then `[2]`, two samples are pushed, yet the emitted windows hold two samples
and the retained buffer another two: the window emitted on the second push is
not removed from the buffer, so its samples are counted twice. -/
theorem audioProcessor_conservation_counterexample :
    ([[(1 : Sample)], [(2 : Sample)]].map List.length).sum ≠
      ((processRun 2 (initialProcessorBuffer 2)
          [[(1 : Sample)], [(2 : Sample)]]).2.1.map List.length).sum +
        (processRun 2 (initialProcessorBuffer 2)
          [[(1 : Sample)], [(2 : Sample)]]).1.length := by
  decide

/-- C1 (amended): the conservation law that actually holds for
`AudioProcessor` balances the pushes against the segments dropped by the
reset in `pushToBuffer`: initial buffer length plus all pushed samples equals
all discarded samples plus the final buffer length.  Emitted windows do not
appear in the balance because emission does not remove samples from the
buffer — an emitted window lingers as the remainder until the next push
discards it. -/
theorem audioProcessor_reset_conservation (bufferSize : Nat)
    (buffer : List Sample) (chunks : List (List Sample)) :
    buffer.length + (chunks.map List.length).sum =
      ((processRun bufferSize buffer chunks).2.2.map List.length).sum +
        (processRun bufferSize buffer chunks).1.length := by
  induction chunks generalizing buffer with
  | nil => simp [processRun]
  | cons c cs ih =>
    rw [processRun_cons]
    simp only [processStep, pushToBuffer, List.map_cons, List.sum_cons,
      List.map_append, List.sum_append]
    by_cases h : bufferSize ≤ buffer.length
    · have := ih (([] : List Sample) ++ c)
      simp only [h, if_true, List.map_cons, List.length_append, List.sum_cons,
        List.map_nil, List.sum_nil, List.nil_append] at this ⊢
      omega
    · have := ih (buffer ++ c)
      simp only [h, if_false, List.map_nil, List.sum_nil, List.length_append,
        List.nil_append] at this ⊢
      omega

/-! ### C2 scenario: chunks of length 1000, 1500, 2000 with window size 4096 -/

/-- The pushed chunks of the spec's scenario (contents are irrelevant). -/
def scenarioChunks : List (List Sample) :=
  [List.replicate 1000 0, List.replicate 1500 0, List.replicate 2000 0]

/-- The spec scenario run: window size 4096 starting from the constructor's
zero-filled buffer. -/
def scenarioRun : List Sample × List (List Sample) × List (List Sample) :=
  processRun 4096 (initialProcessorBuffer 4096) scenarioChunks

/-- Helper: the scenario emits exactly one window, of length 4500, and the
retained buffer afterwards is that same 4500-sample array. -/
theorem scenario_windows_eq :
    scenarioRun.2.1.map List.length = [4500] ∧ scenarioRun.1.length = 4500 := by
  have e : scenarioRun =
      ((List.replicate 1000 (0 : Sample) ++ List.replicate 1500 0) ++
          List.replicate 2000 0,
        [(List.replicate 1000 (0 : Sample) ++ List.replicate 1500 0) ++
          List.replicate 2000 0],
        [initialProcessorBuffer 4096]) := by
    have g1 : (4096 : Nat) ≤ (initialProcessorBuffer 4096).length := by
      simp only [initialProcessorBuffer, List.length_replicate]
      omega
    have g2 : ¬ (4096 : Nat) ≤ (List.replicate 1000 (0 : Sample)).length := by
      simp only [List.length_replicate]
      omega
    have g3 : ¬ (4096 : Nat) ≤
        (List.replicate 1000 (0 : Sample) ++ List.replicate 1500 0).length := by
      simp only [List.length_append, List.length_replicate]
      omega
    have g4 : (4096 : Nat) ≤
        ((List.replicate 1000 (0 : Sample) ++ List.replicate 1500 0) ++
          List.replicate 2000 0).length := by
      simp only [List.length_append, List.length_replicate]
      omega
    simp only [scenarioRun, scenarioChunks, processRun, processStep, pushToBuffer,
      if_pos g1, List.nil_append]
    rw [if_neg g2, if_neg g2, if_neg g3, if_neg g3, if_pos g4]
    simp only [List.nil_append, List.append_nil]
  rw [e]
  constructor
  · simp only [List.map_cons, List.map_nil, List.length_append,
      List.length_replicate]
  · simp only [List.length_append, List.length_replicate]

/-- C2 (counterexample): in the spec's scenario the accumulator does not emit
a window of exactly 4096 samples with a 404-sample remainder; it emits a
single window of 4500 samples and keeps all 4500 as the remainder. -/
theorem audioProcessor_window_scenario_counterexample :
    ¬ (scenarioRun.2.1.map List.length = [4096] ∧ scenarioRun.1.length = 404) := by
  intro h
  have h45 := scenario_windows_eq
  rw [h.1] at h45
  simp at h45

/-- C2 (amended): every window emitted by `AudioProcessor` has length at
least the configured `bufferSize` (never exactly that size unless a chunk
boundary happens to align), and in the spec's scenario (chunks of 1000, 1500
and 2000 samples with window size 4096) exactly one window is emitted, of
length 4500, with the whole 4500-sample array retained as the buffer. -/
theorem audioProcessor_window_size_amended (bufferSize : Nat)
    (buffer : List Sample) (chunks : List (List Sample)) (w : List Sample)
    (hw : w ∈ (processRun bufferSize buffer chunks).2.1) :
    bufferSize ≤ w.length ∧
      scenarioRun.2.1.map List.length = [4500] ∧ scenarioRun.1.length = 4500 := by
  refine ⟨?_, scenario_windows_eq⟩
  induction chunks generalizing buffer with
  | nil => simp [processRun] at hw
  | cons c cs ih =>
    rw [processRun_cons] at hw
    rcases List.mem_append.1 hw with hmem | hmem
    · simp only [processStep] at hmem
      by_cases h : bufferSize ≤ (pushToBuffer bufferSize buffer c).length
      · simp only [h, if_true, List.mem_singleton] at hmem
        exact hmem ▸ h
      · simp [h] at hmem
    · exact ih _ hmem

/-- C2 witness: the amended theorem applied to a concrete run
(`bufferSize = 2`, empty initial buffer, one pushed chunk `[1, 2]`, emitted
window `[1, 2]`). -/
theorem audioProcessor_window_size_amended_witness :
    (2 : Nat) ≤ ([(1 : Sample), (2 : Sample)]).length ∧
      scenarioRun.2.1.map List.length = [4500] ∧ scenarioRun.1.length = 4500 :=
  audioProcessor_window_size_amended 2 [] [[(1 : Sample), (2 : Sample)]]
    [(1 : Sample), (2 : Sample)] (by decide)

/-! ## TinyRecorderService._onAudioProcess (src/src/TinyRecorderService.js)

```js
if (this.buffer.length > this.audioCtx.sampleRate * this.config.preferredBufferSec) {
    this.buffer = new Float32Array();
}
const arrayBuffer = event.inputBuffer.getChannelData(0);
let mergedData = new Float32Array(this.buffer.length + arrayBuffer.length);
mergedData.set(this.buffer, 0);
mergedData.set(arrayBuffer, this.buffer.length);
this.buffer = mergedData;
```

`bound` stands for `sampleRate * preferredBufferSec`. -/

/-- One `TinyRecorderService._onAudioProcess` callback in the `recording`
state: if the stored buffer already exceeds the bound, it is discarded,
then the incoming chunk is appended. -/
def tinyOnAudioProcess (bound : Nat) (buffer chunk : List Sample) : List Sample :=
  (if bound < buffer.length then ([] : List Sample) else buffer) ++ chunk

/-- Iterated `TinyRecorderService._onAudioProcess` callbacks. -/
def tinyOnAudioProcessRun (bound : Nat) (buffer : List Sample) :
    List (List Sample) → List Sample
  | [] => buffer
  | c :: cs => tinyOnAudioProcessRun bound (tinyOnAudioProcess bound buffer c) cs

/-- C9 (counterexample): a push that makes the buffer exceed the bound does
not discard it.  With bound 10 (sample rate 10 × 1 s), a buffered 8-sample
array and an incoming 5-sample chunk, the push would exceed the bound
(8 + 5 > 10), yet the buffer is grown to all 13 samples — the old content is
kept as a prefix — because the discard only fires at the start of a later
push, once the buffer already exceeds the bound. -/
theorem backpressure_counterexample :
    tinyOnAudioProcess 10 (List.replicate 8 (0 : Sample)) (List.replicate 5 1) =
        List.replicate 8 (0 : Sample) ++ List.replicate 5 1 ∧
      (tinyOnAudioProcess 10 (List.replicate 8 (0 : Sample))
          (List.replicate 5 1)).length = 13 ∧
      10 < 13 := by
  refine ⟨?_, ?_, by omega⟩ <;> decide

/-- C9 (amended): the discard fires at the start of a push whenever the
buffer already exceeds `bound`, so the buffer can overshoot the bound by at
most one chunk: if every delivered chunk has length at most `maxChunk` and
the buffer starts within `bound + maxChunk`, then after any sequence of
callbacks its length is still at most `bound + maxChunk` — bounded, but not
by `bound` itself. -/
theorem backpressure_bound_amended (bound maxChunk : Nat) (buffer : List Sample)
    (chunks : List (List Sample)) (hb : buffer.length ≤ bound + maxChunk)
    (hc : ∀ c ∈ chunks, c.length ≤ maxChunk) :
    (tinyOnAudioProcessRun bound buffer chunks).length ≤ bound + maxChunk := by
  induction chunks generalizing buffer with
  | nil => exact hb
  | cons c cs ih =>
    have hclen : c.length ≤ maxChunk := hc c (List.mem_cons_self c cs)
    refine ih (tinyOnAudioProcess bound buffer c) ?_
      (fun d hd => hc d (List.mem_cons_of_mem c hd))
    by_cases h : bound < buffer.length
    · simp only [tinyOnAudioProcess, if_pos h, List.nil_append]
      omega
    · simp only [tinyOnAudioProcess, if_neg h, List.length_append]
      omega

/-- C9 witness: the amended bound applied at bound 10, chunk limit 5, empty
initial buffer and two 5-sample chunks. -/
theorem backpressure_bound_amended_witness :
    (tinyOnAudioProcessRun 10 []
        [List.replicate 5 (0 : Sample), List.replicate 5 0]).length ≤ 10 + 5 :=
  backpressure_bound_amended 10 5 []
    [List.replicate 5 (0 : Sample), List.replicate 5 0]
    (by simp) (by decide)

/-! ## Rate Converter

`Resampler.js` is imported by RecorderService.js but its source is not part
of the repository snapshot, so the converter is modelled from the
specification (§4.3). -/

/-- Modelled from the spec: the Rate Converter of §4.3 (`Resampler.js` is
missing from the sources).  "When `inputRate == outputRate`, returns the
input unchanged (bypass).  When rates differ, produces an output sequence
whose length is the ceiling of the scaled window, using interpolation
between source samples positioned at `i * inputRate/outputRate`; boundary
samples use nearest available source sample."  Pure and stateless. -/
def convert (x : List Sample) (inputRate outputRate channelCount : Nat) :
    List Sample :=
  if inputRate = outputRate then x
  else
    let _ := channelCount
    let outLen : Nat := (((x.length * outputRate : ℚ) / inputRate).ceil).toNat
    (List.range outLen).map fun i =>
      let pos : ℚ := (i * inputRate : ℚ) / outputRate
      let idx : Nat := pos.floor.toNat
      if idx + 1 < x.length then
        let frac : ℚ := pos - idx
        x.getD idx 0 * (1 - frac) + x.getD (idx + 1) 0 * frac
      else x.getD (x.length - 1) 0

/-- `RecorderService.init`: `this.bufferSizeRatio = this.audioCtx.sampleRate /
this.config.sampleRate` (src/src/RecorderService.js lines 340-341). -/
def bufferSizeRatio (ctxSampleRate cfgSampleRate : Nat) : ℚ :=
  (ctxSampleRate : ℚ) / (cfgSampleRate : ℚ)

/-- The buffer-selection step of `RecorderService._onAudioProcess`
(src/src/RecorderService.js lines 722-742): when `bufferSizeRatio != 1` the
window is passed through the resampler, otherwise the raw channel data is
forwarded unchanged. -/
def onAudioProcessBuffer (ctxSampleRate cfgSampleRate channelCount : Nat)
    (data : List Sample) : List Sample :=
  if bufferSizeRatio ctxSampleRate cfgSampleRate ≠ 1 then
    convert data ctxSampleRate cfgSampleRate channelCount
  else data

/-- C5: the rate converter is the identity when input and output rates are
equal — `convert x r r c = x` for every sample sequence `x`, rate `r` and
channel count `c` — and in that case the `_onAudioProcess` pipeline forwards
the emitted window unchanged (the ratio branch is not taken, or, for the
degenerate rate 0, the converter bypasses anyway). -/
theorem resample_bypass (x : List Sample) (r c : Nat) :
    convert x r r c = x ∧ onAudioProcessBuffer r r c x = x := by
  have hc : convert x r r c = x := by simp [convert]
  refine ⟨hc, ?_⟩
  by_cases h : bufferSizeRatio r r ≠ 1
  · simp only [onAudioProcessBuffer, if_pos h]
    exact hc
  · simp only [onAudioProcessBuffer, if_neg h]

/-! ## Encoder Channel

`encoder-wav-worker.js` is imported by RecorderService.js but its source is
not part of the repository snapshot, so the encode task is modelled from the
specification (§4.4 / §6): an ordered command channel whose state is the
queue of enqueued windows. -/

/-- Outbound messages of the Encoder Channel, the `postMessage` tuples
`["encode", samples]`, `["dump", sampleRate]` and `["close"]` of
src/src/RecorderService.js lines 759, 789-792 and 870. -/
inductive EncMsg where
  | encode (samples : List Sample)
  | dump (sampleRate : Nat)
  | close
  deriving DecidableEq

/-- A finished artifact: the container produced by a `dump`, carrying the
sample rate it was written with and the (decoded) samples of all flushed
windows in order. -/
structure Artifact where
  rate : Nat
  samples : List Sample
  deriving DecidableEq

/-- Modelled from the spec: one step of the encode task (§4.4).  `encode`
enqueues a window with no reply; `dump` flushes every previously enqueued
window, in order, into one container and emits exactly one reply; `close`
releases the task's resources. -/
def encStep (queue : List (List Sample)) :
    EncMsg → List (List Sample) × List Artifact
  | EncMsg.encode s => (queue ++ [s], [])
  | EncMsg.dump r => ([], [{ rate := r, samples := queue.flatten }])
  | EncMsg.close => ([], [])

/-- Modelled from the spec: the encode task applies commands strictly in
send order (FIFO channel, §4.4); replies are collected in order. -/
def encRun (queue : List (List Sample)) :
    List EncMsg → List (List Sample) × List Artifact
  | [] => (queue, [])
  | m :: ms =>
    let s := encStep queue m
    let rest := encRun s.1 ms
    (rest.1, s.2 ++ rest.2)

/-- C4: sending `encode(a)`, `encode(b)`, `dump(r)` to a fresh encode task
flushes both enqueued windows, in order, into the final container before the
dump is applied, emits exactly one reply, and the artifact's decoded sample
count is `a.length + b.length` at rate `r`. -/
theorem encoder_dump_ordering (a b : List Sample) (r : Nat) :
    (encRun [] [EncMsg.encode a, EncMsg.encode b, EncMsg.dump r]).2 =
        [{ rate := r, samples := a ++ b }] ∧
      ((encRun [] [EncMsg.encode a, EncMsg.encode b, EncMsg.dump r]).2.map
          fun art => art.samples.length) = [a.length + b.length] := by
  constructor <;>
    simp [encRun, encStep, List.length_append]

/-! ## RecorderService lifecycle (src/src/RecorderService.js, EventTarget version)

The state of one `RecorderService` instance: the `this.state` string, whether
the `AudioContext` clock is running, the accumulator buffer held by the
attached worklet processor, the encoded-chunk list, the log of messages
posted to the encoder worker, flags for the audio-graph resources that
`_destroy` releases, and the configuration entries the modelled operations
read.  The dynamics-compressor node is part of the graph but is never
released by `_destroy` in the source, so it is not tracked. -/

/-- The four `this.state` strings the source assigns. -/
inductive RState where
  | configured
  | inactive
  | recording
  | paused
  deriving DecidableEq

/-- The literal string stored in `this.state` (used in rejection reasons). -/
def stateStr : RState → String
  | RState.configured => "configured"
  | RState.inactive => "inactive"
  | RState.recording => "recording"
  | RState.paused => "paused"

/-- One encoded data chunk delivered to `_onDataAvailable` (`event.data`):
a blob with a MIME type and a byte size. -/
structure Chunk where
  ty : String
  bytes : Nat
  deriving DecidableEq

/-- The `recorded` payload built by `_onDataAvailable` (lines 826-847):
the blob is assembled from the accumulated chunk list with the last chunk
type as MIME type; the wall-clock timestamp and the blob URL handle are not
modelled.  `size` is the total byte size of the packaged chunks. -/
structure Recorded where
  chunks : List Chunk
  mimeType : String
  size : Nat
  deriving DecidableEq

/-- The modelled instance state of `RecorderService`. -/
structure Recorder where
  state : RState
  ctxRunning : Bool
  procBuffer : List Sample
  chunks : List Chunk
  chunkType : Option String
  posted : List EncMsg
  mediaRecorderStopped : Bool
  handlerAttached : Bool
  hasAudioCtx : Bool
  hasDestinationNode : Bool
  hasOutputGainNode : Bool
  hasProcessorNode : Bool
  hasMicGainNode : Bool
  hasInputStreamNode : Bool
  hasMicAudioStream : Bool
  hasEncoderWorker : Bool
  hasMediaRecorder : Bool
  tracksStopped : Bool
  ctxClosed : Bool
  cfgMakeBlob : Bool
  cfgUsingMediaRecorder : Bool
  cfgStopTracks : Bool
  cfgBroadcast : Bool
  cfgSampleRate : Nat
  deriving DecidableEq

/-- `RecorderService._pause` (lines 662-667): await `audioCtx.suspend()`,
then `this.state = "paused"`.  Nothing else — in particular the worklet's
accumulator buffer is not touched. -/
def pauseBody (r : Recorder) : Recorder :=
  { r with ctxRunning := false, state := RState.paused }

/-- `RecorderService._resume` (lines 686-691): await `audioCtx.resume()`,
then `this.state = "recording"`. -/
def resumeBody (r : Recorder) : Recorder :=
  { r with ctxRunning := true, state := RState.recording }

/-- `RecorderService.pause` (lines 649-660): reject with the current state
string unless `this.state === "recording"`, otherwise run `_pause`. -/
def pause (r : Recorder) : Recorder × Except String Unit :=
  if r.state ≠ RState.recording then (r, Except.error (stateStr r.state))
  else (pauseBody r, Except.ok ())

/-- `RecorderService.resume` (lines 673-684): reject with the current state
string unless `this.state === "paused"`, otherwise run `_resume`. -/
def resume (r : Recorder) : Recorder × Except String Unit :=
  if r.state ≠ RState.paused then (r, Except.error (stateStr r.state))
  else (resumeBody r, Except.ok ())

/-- `RecorderService.init` body on the steady path (lines 291-560): build the
`AudioContext` and suspend it, create the gain/processor/destination nodes
(the processor node exists when `broadcastAudioProcessEvents ||
!usingMediaRecorder`), create the encoder worker when
`!usingMediaRecorder && makeBlob`, acquire the stream (assumed granted),
create and start the `MediaRecorder` when `usingMediaRecorder && makeBlob`,
then `_init` ends with `await this._pause(); this.state = "inactive"`. -/
def initBody (r : Recorder) : Recorder :=
  { r with
    hasAudioCtx := true
    ctxRunning := false
    hasMicGainNode := true
    hasOutputGainNode := true
    hasProcessorNode := r.cfgBroadcast || !r.cfgUsingMediaRecorder
    hasDestinationNode := true
    hasEncoderWorker := !r.cfgUsingMediaRecorder && r.cfgMakeBlob
    hasMicAudioStream := true
    hasInputStreamNode := true
    hasMediaRecorder := r.cfgUsingMediaRecorder && r.cfgMakeBlob
    state := RState.inactive }

/-- `RecorderService.init` (lines 291-481): reject with the current state
string unless `this.state === "configured"` (device support and stream
acquisition are assumed to succeed in the model). -/
def init (r : Recorder) : Recorder × Except String Unit :=
  if r.state ≠ RState.configured then (r, Except.error (stateStr r.state))
  else (initBody r, Except.ok ())

/-- `RecorderService._record` (lines 629-643): await `_resume()`, then, if
the processor node exists, attach the per-chunk message handler. -/
def recordBody (r : Recorder) : Recorder :=
  let r1 := resumeBody r
  { r1 with handlerAttached := if r1.hasProcessorNode then true else r1.handlerAttached }

/-- `RecorderService.record` (lines 618-627): if still `configured`, run
`init` first; then run `_record` unconditionally.  There is no guard: the
promise always resolves. -/
def record (r : Recorder) : Recorder × Except String Unit :=
  (recordBody (if r.state = RState.configured then initBody r else r),
    Except.ok ())

/-- `RecorderService.stop` (lines 767-797): reject with the current state
string when already `inactive`; otherwise await `audioCtx.suspend()`, set
`this.state = "inactive"`, then — only when `makeBlob` — either stop the
`MediaRecorder` (when `usingMediaRecorder`) or post `["dump", sampleRate]`
to the encoder worker.  No resource is torn down here. -/
def stop (r : Recorder) : Recorder × Except String Unit :=
  if r.state = RState.inactive then (r, Except.error (stateStr r.state))
  else
    let r1 := { r with ctxRunning := false, state := RState.inactive }
    let r2 :=
      if r.cfgMakeBlob then
        if r.cfgUsingMediaRecorder then { r1 with mediaRecorderStopped := true }
        else { r1 with posted := r1.posted ++ [EncMsg.dump r.cfgSampleRate] }
      else r1
    (r2, Except.ok ())

/-- `RecorderService._destroy` (lines 854-894): `_clear()`, then disconnect
and null every present node, post `["close"]` to the encoder worker if
present, and — when `stopTracksAndCloseCtxWhenFinished` — stop the stream
tracks and close the `AudioContext`. -/
def destroy (r : Recorder) : Recorder :=
  { r with
    chunks := []
    chunkType := none
    hasDestinationNode := false
    hasOutputGainNode := false
    hasProcessorNode := false
    posted := if r.hasEncoderWorker then r.posted ++ [EncMsg.close] else r.posted
    hasEncoderWorker := false
    hasMicGainNode := false
    hasInputStreamNode := false
    hasMicAudioStream := if r.cfgStopTracks then false else r.hasMicAudioStream
    tracksStopped := r.tracksStopped || (r.cfgStopTracks && r.hasMicAudioStream)
    hasAudioCtx := if r.cfgStopTracks then false else r.hasAudioCtx
    ctxClosed := r.ctxClosed || (r.cfgStopTracks && r.hasAudioCtx) }

/-- `RecorderService.release` (lines 802-808): a no-op unless
`this.state === "inactive"`, otherwise `_destroy()`. -/
def release (r : Recorder) : Recorder :=
  if r.state ≠ RState.inactive then r else destroy r

/-- `RecorderService._onDataAvailable` (lines 815-848): push the chunk and
remember its type; if the state is not `inactive`, return without firing any
event; otherwise package every accumulated chunk into the `recorded`
payload, clear the chunk list (`_clear`), and dispatch the event. -/
def onDataAvailable (r : Recorder) (c : Chunk) : Recorder × Option Recorded :=
  let r1 := { r with chunks := r.chunks ++ [c], chunkType := some c.ty }
  if r1.state ≠ RState.inactive then (r1, none)
  else
    ({ r1 with chunks := [], chunkType := none },
      some { chunks := r1.chunks, mimeType := c.ty,
             size := (r1.chunks.map Chunk.bytes).sum })

/-! ### Concrete instances used by witnesses and counterexamples -/

/-- A fully initialised instance in the `inactive` state, with the
pre-configured worker-encoder path (`usingMediaRecorder: false`,
`makeBlob: true`). -/
def baseRecorder : Recorder :=
  { state := RState.inactive
    ctxRunning := false
    procBuffer := []
    chunks := []
    chunkType := none
    posted := []
    mediaRecorderStopped := false
    handlerAttached := false
    hasAudioCtx := true
    hasDestinationNode := true
    hasOutputGainNode := true
    hasProcessorNode := true
    hasMicGainNode := true
    hasInputStreamNode := true
    hasMicAudioStream := true
    hasEncoderWorker := true
    hasMediaRecorder := false
    tracksStopped := false
    ctxClosed := false
    cfgMakeBlob := true
    cfgUsingMediaRecorder := false
    cfgStopTracks := true
    cfgBroadcast := true
    cfgSampleRate := 16000 }

/-- The same instance, paused. -/
def pausedRecorder : Recorder :=
  { baseRecorder with state := RState.paused }

/-- The same instance, recording mid-window: the worklet accumulator holds a
partial window of three samples. -/
def recordingRecorder : Recorder :=
  { baseRecorder with
    state := RState.recording
    ctxRunning := true
    procBuffer := [1, 2, 3] }

/-- A recording instance configured with `makeBlob: false` (no artifact
requested, hence no encoder worker either). -/
def stopNoBlobRecorder : Recorder :=
  { baseRecorder with
    state := RState.recording
    ctxRunning := true
    cfgMakeBlob := false
    hasEncoderWorker := false }

/-- One encoded WAV chunk as delivered by the encoder worker reply. -/
def wavChunk : Chunk :=
  { ty := "audio/wav", bytes := 44 }

/-! ### Lifecycle claims -/

/-- C3 (counterexample): `record()` (the `start` operation) performs no guard
check.  Called on an instance in the `paused` state — outside `start`'s
`inactive → recording` transition — it does not reject with an
InvalidStateError: it resolves and moves the state to `recording`. -/
theorem lifecycle_guard_counterexample :
    pausedRecorder.state = RState.paused ∧
      (record pausedRecorder).2 = Except.ok () ∧
      (record pausedRecorder).1.state = RState.recording := by
  refine ⟨rfl, rfl, rfl⟩

/-- C3 (amended): `pause`, `resume`, `stop` and `init` each reject, with the
current state string and without mutating the instance, whenever called
outside their guard; `record` (`start`) however has no guard at all — it
always resolves, from any state. -/
theorem lifecycle_guard_amended (r : Recorder) :
    (r.state ≠ RState.recording → pause r = (r, Except.error (stateStr r.state))) ∧
      (r.state ≠ RState.paused → resume r = (r, Except.error (stateStr r.state))) ∧
      (r.state = RState.inactive → stop r = (r, Except.error (stateStr r.state))) ∧
      (r.state ≠ RState.configured → init r = (r, Except.error (stateStr r.state))) ∧
      (record r).2 = Except.ok () := by
  refine ⟨fun h => ?_, fun h => ?_, fun h => ?_, fun h => ?_, rfl⟩
  · simp [pause, h]
  · simp [resume, h]
  · simp [stop, h]
  · simp [init, h]

/-- C3 witness: the amended theorem applied to the `inactive` instance:
`pause()` rejects with the string "inactive" and leaves the instance
untouched. -/
theorem lifecycle_guard_amended_witness :
    pause baseRecorder = (baseRecorder, Except.error ("inactive")) :=
  (lifecycle_guard_amended baseRecorder).1 (by decide)

/-- C6: from the `recording` state, `pause()` succeeds, suspends the clock
and moves to `paused` without touching the worklet accumulator buffer, and a
following `resume()` succeeds and returns to `recording`, again leaving the
buffered remainder exactly as it was before the pause. -/
theorem pause_resume_preserves_buffer (r : Recorder)
    (h : r.state = RState.recording) :
    (pause r).2 = Except.ok () ∧
      (pause r).1.procBuffer = r.procBuffer ∧
      (pause r).1.state = RState.paused ∧
      (pause r).1.ctxRunning = false ∧
      (resume (pause r).1).2 = Except.ok () ∧
      (resume (pause r).1).1.procBuffer = r.procBuffer ∧
      (resume (pause r).1).1.state = RState.recording := by
  simp [pause, resume, pauseBody, resumeBody, h]

/-- C6 witness: the pause/resume cycle on the recording instance whose
accumulator holds the partial window `[1, 2, 3]`. -/
theorem pause_resume_preserves_buffer_witness :
    (pause recordingRecorder).2 = Except.ok () ∧
      (pause recordingRecorder).1.procBuffer = recordingRecorder.procBuffer ∧
      (pause recordingRecorder).1.state = RState.paused ∧
      (pause recordingRecorder).1.ctxRunning = false ∧
      (resume (pause recordingRecorder).1).2 = Except.ok () ∧
      (resume (pause recordingRecorder).1).1.procBuffer =
        recordingRecorder.procBuffer ∧
      (resume (pause recordingRecorder).1).1.state = RState.recording :=
  pause_resume_preserves_buffer recordingRecorder rfl

/-- C7 (counterexample): `stop()` performs no resource teardown.  On a
recording instance with `makeBlob: false` (no artifact requested) the call
resolves and transitions to `inactive`, but every resource is still held:
no node is disconnected, no track stopped, the context stays open.  And on
the artifact path, a chunk arriving in the `inactive` state fires the
`recorded` event without tearing anything down either. -/
theorem stop_no_teardown_counterexample :
    (stop stopNoBlobRecorder).2 = Except.ok () ∧
      stopNoBlobRecorder.cfgMakeBlob = false ∧
      (stop stopNoBlobRecorder).1.state = RState.inactive ∧
      (stop stopNoBlobRecorder).1.hasAudioCtx = true ∧
      (stop stopNoBlobRecorder).1.hasDestinationNode = true ∧
      (stop stopNoBlobRecorder).1.hasMicAudioStream = true ∧
      (stop stopNoBlobRecorder).1.tracksStopped = false ∧
      (stop stopNoBlobRecorder).1.ctxClosed = false ∧
      ((onDataAvailable baseRecorder wavChunk).2.isSome = true ∧
        (onDataAvailable baseRecorder wavChunk).1.hasAudioCtx = true ∧
        (onDataAvailable baseRecorder wavChunk).1.ctxClosed = false) := by
  exact ⟨rfl, rfl, rfl, rfl, rfl, rfl, rfl, rfl, rfl, rfl, rfl⟩

/-- C7 (amended): for every `stop()` from a non-`inactive` state the call
resolves, the clock is suspended and the state becomes `inactive`; the
encoder worker receives `["dump", sampleRate]` exactly when `makeBlob` is on
and the `MediaRecorder` is not used (with the `MediaRecorder`, it is stopped
instead); and no resource whatsoever is torn down by `stop` — teardown
happens only through an explicit later `release()`. -/
theorem stop_behaviour_amended (r : Recorder) (h : r.state ≠ RState.inactive) :
    (stop r).2 = Except.ok () ∧
      (stop r).1.ctxRunning = false ∧
      (stop r).1.state = RState.inactive ∧
      (stop r).1.posted = r.posted ++
        (if r.cfgMakeBlob && !r.cfgUsingMediaRecorder then
          [EncMsg.dump r.cfgSampleRate] else []) ∧
      (stop r).1.mediaRecorderStopped =
        (r.mediaRecorderStopped || (r.cfgMakeBlob && r.cfgUsingMediaRecorder)) ∧
      (stop r).1.hasAudioCtx = r.hasAudioCtx ∧
      (stop r).1.hasDestinationNode = r.hasDestinationNode ∧
      (stop r).1.hasProcessorNode = r.hasProcessorNode ∧
      (stop r).1.hasEncoderWorker = r.hasEncoderWorker ∧
      (stop r).1.hasMicAudioStream = r.hasMicAudioStream ∧
      (stop r).1.tracksStopped = r.tracksStopped ∧
      (stop r).1.ctxClosed = r.ctxClosed := by
  have hs : ¬ r.state = RState.inactive := h
  by_cases hm : r.cfgMakeBlob <;> by_cases hu : r.cfgUsingMediaRecorder <;>
    simp [stop, hs, hm, hu]

/-- C7 witness: the amended theorem applied to the recording instance on the
worker-encoder path: the dump command is posted and the state ends
`inactive`. -/
theorem stop_behaviour_amended_witness :
    (stop recordingRecorder).2 = Except.ok () ∧
      (stop recordingRecorder).1.ctxRunning = false ∧
      (stop recordingRecorder).1.state = RState.inactive ∧
      (stop recordingRecorder).1.posted = recordingRecorder.posted ++
        (if recordingRecorder.cfgMakeBlob && !recordingRecorder.cfgUsingMediaRecorder then
          [EncMsg.dump recordingRecorder.cfgSampleRate] else []) ∧
      (stop recordingRecorder).1.mediaRecorderStopped =
        (recordingRecorder.mediaRecorderStopped ||
          (recordingRecorder.cfgMakeBlob && recordingRecorder.cfgUsingMediaRecorder)) ∧
      (stop recordingRecorder).1.hasAudioCtx = recordingRecorder.hasAudioCtx ∧
      (stop recordingRecorder).1.hasDestinationNode = recordingRecorder.hasDestinationNode ∧
      (stop recordingRecorder).1.hasProcessorNode = recordingRecorder.hasProcessorNode ∧
      (stop recordingRecorder).1.hasEncoderWorker = recordingRecorder.hasEncoderWorker ∧
      (stop recordingRecorder).1.hasMicAudioStream = recordingRecorder.hasMicAudioStream ∧
      (stop recordingRecorder).1.tracksStopped = recordingRecorder.tracksStopped ∧
      (stop recordingRecorder).1.ctxClosed = recordingRecorder.ctxClosed :=
  stop_behaviour_amended recordingRecorder (by decide)

/-- C8: `release()` is idempotent — from any non-`inactive` state it is a
complete no-op, and from `inactive` a second call changes nothing over the
first: the guarded `_destroy` finds every resource already nulled, so no
further disconnect, close-message, track stop or context close happens. -/
theorem release_idempotent (r : Recorder) :
    (r.state ≠ RState.inactive → release r = r) ∧
      (r.state = RState.inactive → release (release r) = release r) := by
  constructor
  · intro h
    simp [release, h]
  · intro h
    have hrel : release r = destroy r := by simp [release, h]
    have hstate : (destroy r).state = RState.inactive := by
      simp [destroy]
      exact h
    rw [hrel]
    have hrel2 : release (destroy r) = destroy (destroy r) := by
      simp [release, hstate]
    rw [hrel2]
    by_cases hc : r.cfgStopTracks <;> simp [destroy, hc]

/-- C8 witness: releasing the inactive instance twice equals releasing it
once. -/
theorem release_idempotent_witness :
    release (release baseRecorder) = release baseRecorder :=
  (release_idempotent baseRecorder).2 rfl

/-- C10: a chunk arriving while the state is not `inactive` is only appended
to the chunk list — no `recorded` event fires; a chunk arriving in the
`inactive` state fires exactly one `recorded` event packaging every chunk
accumulated since the previous dispatch (the stored list plus the arriving
chunk) and clears the list, so each artifact holds exactly the chunks
received since the last one. -/
theorem recorded_event_gating (r : Recorder) (c : Chunk) :
    (r.state ≠ RState.inactive →
      onDataAvailable r c =
        ({ r with chunks := r.chunks ++ [c], chunkType := some c.ty }, none)) ∧
      (r.state = RState.inactive →
        onDataAvailable r c =
          ({ r with chunks := [], chunkType := none },
            some { chunks := r.chunks ++ [c], mimeType := c.ty,
                   size := ((r.chunks ++ [c]).map Chunk.bytes).sum })) := by
  constructor <;> intro h <;> simp [onDataAvailable, h]

/-- C10 witness: a chunk arriving on the inactive instance is packaged into
one `recorded` payload and the chunk list is cleared. -/
theorem recorded_event_gating_witness :
    onDataAvailable baseRecorder wavChunk =
      ({ baseRecorder with chunks := [], chunkType := none },
        some { chunks := baseRecorder.chunks ++ [wavChunk],
               mimeType := wavChunk.ty,
               size := ((baseRecorder.chunks ++ [wavChunk]).map Chunk.bytes).sum }) :=
  (recorded_event_gating baseRecorder wavChunk).2 rfl
